import Mathlib

/-!
Shallow embedding of the Financial Projection & Context Engine of the
CFO-Helper dashboard (src/src/components/Dashboard.tsx).  Numbers are
modelled as rationals; `Math.floor` becomes `Int.floor`; the JavaScript
`Infinity` sentinel for runway becomes an explicit constructor.
-/

namespace CFOHelper

/-- The simulation inputs held by the dashboard (`SimulationInputs`).
`customParameters` is an opaque ordered association list the engine never
inspects. -/
structure SimulationInputs where
  employees : ℚ
  marketingSpend : ℚ
  productPrice : ℚ
  miscExpenses : ℚ
  currentFunds : ℚ
  customParameters : List (String × ℚ)
  deriving DecidableEq

/-- Runway result: either a finite number of months (`Math.floor` of the
division) or the `Infinity` sentinel returned when expenses are not
positive. -/
inductive Runway where
  | finite (months : ℤ)
  | infinite
  deriving DecidableEq

/-- The projection result (`FinancialData`). -/
structure FinancialData where
  revenue : ℚ
  expenses : ℚ
  netProfit : ℚ
  runway : Runway
  profitMargin : ℚ
  deriving DecidableEq

/-- The scaling constants derived from the organization type tag
(spec §4.1); in the source the three conditionals are inlined at both
call sites. -/
structure OrganizationProfile where
  quantityMultiplier : ℚ
  baseSalary : ℚ
  baseFixedCost : ℚ
  deriving DecidableEq

/-- OrganizationProfile Resolver: the three inlined conditionals of
Dashboard.tsx lines 81-88 / 152-156, bundled.  The tag is `none` when
`organizationData?.organizationType` is absent. -/
def resolveProfile (orgType : Option String) : OrganizationProfile :=
  { quantityMultiplier :=
      if orgType = some "startup" then 1.2
      else if orgType = some "event" then 0.8 else 1.0
    baseSalary := if orgType = some "startup" then 70000 else 60000
    baseFixedCost := if orgType = some "event" then 200000 else 300000 }

/-- Projection Calculator: the pure core of `runSimulation`
(Dashboard.tsx lines 79-104). -/
def runSimulation (orgType : Option String) (inputs : SimulationInputs) :
    FinancialData :=
  let baseMultiplier : ℚ :=
    if orgType = some "startup" then 1.2
    else if orgType = some "event" then 0.8 else 1.0
  let assumedQuantity : ℤ := ⌊(100 : ℚ) * baseMultiplier⌋
  let baseSalary : ℚ := if orgType = some "startup" then 70000 else 60000
  let baseFixedCost : ℚ := if orgType = some "event" then 200000 else 300000
  let revenue : ℚ := inputs.productPrice * (assumedQuantity : ℚ)
  let expenses : ℚ :=
    baseFixedCost + baseSalary * inputs.employees + inputs.marketingSpend +
      inputs.miscExpenses
  let netProfit : ℚ := revenue - expenses
  let runway : Runway :=
    if 0 < expenses then Runway.finite ⌊inputs.currentFunds / expenses⌋
    else Runway.infinite
  { revenue := revenue
    expenses := expenses
    netProfit := netProfit
    runway := runway
    profitMargin := if 0 < revenue then netProfit / revenue * 100 else 0 }

/-- One point of the synthetic chart series. -/
structure TimeSeriesPoint where
  month : String
  revenue : ℚ
  expenses : ℚ
  deriving DecidableEq

/-- The 8-point seed of `mockData` (Dashboard.tsx lines 53-62). -/
def mockDataSeed : List TimeSeriesPoint :=
  [⟨"Jan", 1250000, 875000⟩, ⟨"Feb", 1300000, 900000⟩,
   ⟨"Mar", 1200000, 850000⟩, ⟨"Apr", 1375000, 950000⟩,
   ⟨"May", 1450000, 1000000⟩, ⟨"Jun", 1550000, 1050000⟩,
   ⟨"Jul", 1600000, 1100000⟩, ⟨"Aug", 1750000, 1200000⟩]

/-- The context snapshot handed to the advisory consumer
(`FinancialContext`). -/
structure FinancialContext where
  currentRevenue : ℚ
  projectedRevenue : ℚ
  expenses : ℚ
  growthRate : ℚ
  timeHorizon : ℚ
  cashFlow : ℚ
  profitMargin : ℚ
  deriving DecidableEq

/-- Context Builder: `getFinancialContext` (Dashboard.tsx lines 151-172).
`mockData[mockData.length - 1]` is total only on a non-empty series, so
the embedding carries that hypothesis. -/
def getFinancialContext (orgType : Option String) (inputs : SimulationInputs)
    (mockData : List TimeSeriesPoint) (hne : mockData ≠ []) :
    FinancialContext :=
  let baseMultiplier : ℚ :=
    if orgType = some "startup" then 1.2
    else if orgType = some "event" then 0.8 else 1.0
  let assumedQuantity : ℤ := ⌊(100 : ℚ) * baseMultiplier⌋
  let baseSalary : ℚ := if orgType = some "startup" then 70000 else 60000
  let baseFixedCost : ℚ := if orgType = some "event" then 200000 else 300000
  let revenue : ℚ := inputs.productPrice * (assumedQuantity : ℚ)
  let expenses : ℚ :=
    baseFixedCost + baseSalary * inputs.employees + inputs.marketingSpend +
      inputs.miscExpenses
  let netProfit : ℚ := revenue - expenses
  let currentMonthData := mockData.getLast hne
  { currentRevenue := currentMonthData.revenue
    projectedRevenue := revenue
    expenses := expenses
    growthRate := 15
    timeHorizon := 12
    cashFlow := currentMonthData.revenue - currentMonthData.expenses
    profitMargin := if 0 < revenue then netProfit / revenue * 100 else 0 }

/-- One tick applied to a single point (the arrow body of the
`setInterval` effect, Dashboard.tsx lines 68-72): `u` and `v` are the two
`Math.random()` draws for this item. -/
def tickPoint (u v : ℚ) (item : TimeSeriesPoint) : TimeSeriesPoint :=
  { item with
    revenue := max 0 (item.revenue + (u - 0.5) * 125000)
    expenses := max 0 (item.expenses + (v - 0.5) * 75000) }

/-- One tick applied to the whole series: `prevData.map` with an
independent pair of uniform draws per item, supplied as a stream `draw`
indexed by position starting at `i`. -/
def tickList (draw : ℕ → ℚ × ℚ) : ℕ → List TimeSeriesPoint →
    List TimeSeriesPoint
  | _, [] => []
  | i, item :: rest =>
      tickPoint (draw i).1 (draw i).2 item :: tickList draw (i + 1) rest

/-- The series after `n` ticks of the interval timer starting from the
seed; `draws n` is the draw stream used by tick number `n`. -/
def iterateTicks (draws : ℕ → ℕ → ℚ × ℚ) : ℕ → List TimeSeriesPoint
  | 0 => mockDataSeed
  | n + 1 => tickList (draws n) 0 (iterateTicks draws n)

/-- The usage counters (`usageStats` state). -/
structure UsageStats where
  simulations : ℕ
  exports : ℕ
  deriving DecidableEq

/-- The counter update performed by `runSimulation`
(Dashboard.tsx line 107). -/
def recordSimulationRun (prev : UsageStats) : UsageStats :=
  { prev with simulations := prev.simulations + 1 }

/-- The counter update performed by `handleExport`
(Dashboard.tsx lines 146-148). -/
def handleExport (prev : UsageStats) : UsageStats :=
  { prev with exports := prev.exports + 1 }

/-- The two external triggers that touch the counters. -/
inductive Trigger where
  | simulate
  | exportData
  deriving DecidableEq

/-- Dispatch one trigger to its counter update. -/
def applyTrigger : Trigger → UsageStats → UsageStats
  | Trigger.simulate, s => recordSimulationRun s
  | Trigger.exportData, s => handleExport s

/-- A whole sequence of triggers, applied left to right. -/
def applyTriggers (ts : List Trigger) (s : UsageStats) : UsageStats :=
  ts.foldl (fun acc t => applyTrigger t acc) s

/-- The snake-case record handed to `saveFinancialData`
(Dashboard.tsx lines 130-137). -/
structure FinancialDataPayload where
  current_funds : ℚ
  monthly_revenue : ℚ
  monthly_expenses : ℚ
  employees : ℚ
  marketing_spend : ℚ
  product_price : ℚ
  misc_expenses : ℚ
  deriving DecidableEq

/-- The payload built inside `runSimulation` from the same `revenue` and
`expenses` bindings that produced the `FinancialData` of that run. -/
def saveFinancialDataPayload (orgType : Option String)
    (inputs : SimulationInputs) : FinancialDataPayload :=
  let results := runSimulation orgType inputs
  { current_funds := inputs.currentFunds
    monthly_revenue := results.revenue / 12
    monthly_expenses := results.expenses / 12
    employees := inputs.employees
    marketing_spend := inputs.marketingSpend
    product_price := inputs.productPrice
    misc_expenses := inputs.miscExpenses }

/-- The load-back effect (Dashboard.tsx lines 39-51): each stored field is
taken unless it is falsy (0 for numbers), in which case the previous
in-memory value is kept; `customParameters` is kept as-is. -/
def loadFinancialData (stored : FinancialDataPayload)
    (prev : SimulationInputs) : SimulationInputs :=
  { prev with
    currentFunds :=
      if stored.current_funds = 0 then prev.currentFunds
      else stored.current_funds
    employees :=
      if stored.employees = 0 then prev.employees else stored.employees
    marketingSpend :=
      if stored.marketing_spend = 0 then prev.marketingSpend
      else stored.marketing_spend
    productPrice :=
      if stored.product_price = 0 then prev.productPrice
      else stored.product_price
    miscExpenses :=
      if stored.misc_expenses = 0 then prev.miscExpenses
      else stored.misc_expenses
    customParameters := prev.customParameters }

/-! ### Helper lemmas (shared, not claim theorems) -/

lemma mockDataSeed_ne_nil : mockDataSeed ≠ [] := by decide

lemma runSimulation_expenses (orgType : Option String)
    (inputs : SimulationInputs) :
    (runSimulation orgType inputs).expenses =
      (if orgType = some "event" then (200000 : ℚ) else 300000) +
        (if orgType = some "startup" then (70000 : ℚ) else 60000) *
          inputs.employees +
        inputs.marketingSpend + inputs.miscExpenses := rfl

lemma runSimulation_runway (orgType : Option String)
    (inputs : SimulationInputs) :
    (runSimulation orgType inputs).runway =
      if 0 < (runSimulation orgType inputs).expenses then
        Runway.finite
          ⌊inputs.currentFunds / (runSimulation orgType inputs).expenses⌋
      else Runway.infinite := rfl

lemma runSimulation_profitMargin (orgType : Option String)
    (inputs : SimulationInputs) :
    (runSimulation orgType inputs).profitMargin =
      if 0 < (runSimulation orgType inputs).revenue then
        (runSimulation orgType inputs).netProfit /
          (runSimulation orgType inputs).revenue * 100
      else 0 := rfl

lemma context_profitMargin_eq (orgType : Option String)
    (inputs : SimulationInputs) (mockData : List TimeSeriesPoint)
    (hne : mockData ≠ []) :
    (getFinancialContext orgType inputs mockData hne).profitMargin =
      (runSimulation orgType inputs).profitMargin := rfl

lemma expenses_pos (orgType : Option String) (inputs : SimulationInputs)
    (hemp : 0 ≤ inputs.employees) (hmkt : 0 ≤ inputs.marketingSpend)
    (hmisc : 0 ≤ inputs.miscExpenses) :
    0 < (runSimulation orgType inputs).expenses := by
  rw [runSimulation_expenses]
  have h1 : (0 : ℚ) < if orgType = some "event" then (200000 : ℚ) else 300000 := by
    split <;> norm_num
  have h2 : (0 : ℚ) ≤
      (if orgType = some "startup" then (70000 : ℚ) else 60000) *
        inputs.employees := by
    refine mul_nonneg ?_ hemp
    split <;> norm_num
  linarith

lemma tickList_length (draw : ℕ → ℚ × ℚ) (i : ℕ)
    (l : List TimeSeriesPoint) : (tickList draw i l).length = l.length := by
  induction l generalizing i with
  | nil => rfl
  | cons item rest ih => simp [tickList, ih]

lemma tickList_map_month (draw : ℕ → ℚ × ℚ) (i : ℕ)
    (l : List TimeSeriesPoint) :
    (tickList draw i l).map TimeSeriesPoint.month =
      l.map TimeSeriesPoint.month := by
  induction l generalizing i with
  | nil => rfl
  | cons item rest ih => simp [tickList, tickPoint, ih]

lemma tickList_nonneg (draw : ℕ → ℚ × ℚ) (i : ℕ)
    (l : List TimeSeriesPoint) :
    ∀ p ∈ tickList draw i l, 0 ≤ p.revenue ∧ 0 ≤ p.expenses := by
  induction l generalizing i with
  | nil => intro p hp; simp [tickList] at hp
  | cons item rest ih =>
    intro p hp
    rcases List.mem_cons.mp hp with hp | hp
    · subst hp
      constructor <;> exact le_max_left 0 _
    · exact ih (i + 1) p hp

lemma applyTriggers_cons (t : Trigger) (ts : List Trigger) (s : UsageStats) :
    applyTriggers (t :: ts) s = applyTriggers ts (applyTrigger t s) := rfl

lemma applyTriggers_mono (ts : List Trigger) (s : UsageStats) :
    s.simulations ≤ (applyTriggers ts s).simulations ∧
      s.exports ≤ (applyTriggers ts s).exports := by
  induction ts generalizing s with
  | nil => exact ⟨le_refl _, le_refl _⟩
  | cons t ts ih =>
    have h := ih (applyTrigger t s)
    rw [applyTriggers_cons]
    refine ⟨le_trans ?_ h.1, le_trans ?_ h.2⟩ <;>
      cases t <;>
        simp [applyTrigger, recordSimulationRun, handleExport]

/-! ### Claim theorems -/

/-- Claim C1: for every inputs record and organization tag, the Context
Builder and the Projection Calculator agree exactly on revenue, expenses
and profit margin, both computing the quantity as floor of 100 times the
multiplier and applying the multiplier only there. -/
theorem context_matches_simulation (orgType : Option String)
    (inputs : SimulationInputs) (mockData : List TimeSeriesPoint)
    (hne : mockData ≠ []) :
    (getFinancialContext orgType inputs mockData hne).projectedRevenue =
        (runSimulation orgType inputs).revenue ∧
      (getFinancialContext orgType inputs mockData hne).expenses =
        (runSimulation orgType inputs).expenses ∧
      (getFinancialContext orgType inputs mockData hne).profitMargin =
        (runSimulation orgType inputs).profitMargin ∧
      (runSimulation orgType inputs).revenue =
        inputs.productPrice *
          ((⌊(100 : ℚ) *
              (if orgType = some "startup" then (1.2 : ℚ)
               else if orgType = some "event" then 0.8 else 1.0)⌋ : ℤ) : ℚ) :=
  ⟨rfl, rfl, rfl, rfl⟩

/-- Claim C1 witness at the startup tag, default inputs and the seed
series. -/
theorem context_matches_simulation_witness :
    (getFinancialContext (some "startup")
        ⟨5, 200000, 2999, 150000, 5000000, []⟩ mockDataSeed
        mockDataSeed_ne_nil).projectedRevenue =
      (runSimulation (some "startup")
        ⟨5, 200000, 2999, 150000, 5000000, []⟩).revenue :=
  (context_matches_simulation (some "startup")
      ⟨5, 200000, 2999, 150000, 5000000, []⟩ mockDataSeed
      mockDataSeed_ne_nil).1

/-- Claim C2: the startup scenario with price 2999, 5 employees, 200000
marketing, 150000 misc and 5000000 funds yields revenue 359880, expenses
1000000, net profit -640120, runway 5 months and margin
(-640120 / 359880) * 100; the resolved profile is (1.2, 70000, 300000). -/
theorem startup_scenario :
    runSimulation (some "startup") ⟨5, 200000, 2999, 150000, 5000000, []⟩ =
        { revenue := 359880
          expenses := 1000000
          netProfit := -640120
          runway := Runway.finite 5
          profitMargin := -640120 / 359880 * 100 } ∧
      resolveProfile (some "startup") = ⟨1.2, 70000, 300000⟩ := by
  constructor
  · simp only [runSimulation, String.reduceEq, Option.some.injEq, reduceIte,
      FinancialData.mk.injEq, Runway.finite.injEq]
    norm_num
  · rfl

/-- Sample inputs used by witnesses: the dashboard's default state. -/
def sampleInputs : SimulationInputs := ⟨5, 200000, 2999, 150000, 5000000, []⟩

/-- Claim C3: under the data-model constraints (non-negative employees,
marketing spend and misc expenses) expenses are always positive, so the
runway is the infinite sentinel exactly when expenses are zero, and with
positive expenses it is the floor of current funds divided by expenses:
the division is guarded and total. -/
theorem runway_guarded (orgType : Option String) (inputs : SimulationInputs)
    (hemp : 0 ≤ inputs.employees) (hmkt : 0 ≤ inputs.marketingSpend)
    (hmisc : 0 ≤ inputs.miscExpenses) :
    ((runSimulation orgType inputs).runway = Runway.infinite ↔
        (runSimulation orgType inputs).expenses = 0) ∧
      (0 < (runSimulation orgType inputs).expenses →
        (runSimulation orgType inputs).runway =
          Runway.finite
            ⌊inputs.currentFunds /
              (runSimulation orgType inputs).expenses⌋) := by
  have hE : 0 < (runSimulation orgType inputs).expenses :=
    expenses_pos orgType inputs hemp hmkt hmisc
  have hfin : (runSimulation orgType inputs).runway =
      Runway.finite
        ⌊inputs.currentFunds / (runSimulation orgType inputs).expenses⌋ := by
    rw [runSimulation_runway, if_pos hE]
  refine ⟨⟨fun hinf => ?_, fun h0 => absurd h0 (ne_of_gt hE)⟩, fun _ => hfin⟩
  rw [hfin] at hinf
  exact Runway.noConfusion hinf

/-- Claim C3 witness at the startup tag and the default inputs. -/
theorem runway_guarded_witness :
    (runSimulation (some "startup") sampleInputs).runway =
      Runway.finite
        ⌊(5000000 : ℚ) /
          (runSimulation (some "startup") sampleInputs).expenses⌋ :=
  (runway_guarded (some "startup") sampleInputs (by decide) (by decide)
      (by decide)).2
    (by
      simp only [runSimulation_expenses, sampleInputs, Option.some.injEq,
        String.reduceEq, reduceIte]
      norm_num)

/-- Claim C4: whenever the computed revenue is zero the profit margin is
exactly zero in both the Projection Calculator and the Context Builder,
whatever the net profit; with positive revenue it is net profit over
revenue times 100 in both. -/
theorem profitMargin_rule (orgType : Option String) (inputs : SimulationInputs)
    (mockData : List TimeSeriesPoint) (hne : mockData ≠ []) :
    ((runSimulation orgType inputs).revenue = 0 →
        (runSimulation orgType inputs).profitMargin = 0 ∧
          (getFinancialContext orgType inputs mockData hne).profitMargin = 0) ∧
      (0 < (runSimulation orgType inputs).revenue →
        (runSimulation orgType inputs).profitMargin =
            (runSimulation orgType inputs).netProfit /
              (runSimulation orgType inputs).revenue * 100 ∧
          (getFinancialContext orgType inputs mockData hne).profitMargin =
            (runSimulation orgType inputs).netProfit /
              (runSimulation orgType inputs).revenue * 100) := by
  constructor
  · intro h0
    have hneg : ¬0 < (runSimulation orgType inputs).revenue := by
      rw [h0]
      exact lt_irrefl 0
    constructor
    · rw [runSimulation_profitMargin, if_neg hneg]
    · rw [context_profitMargin_eq, runSimulation_profitMargin, if_neg hneg]
  · intro hpos
    constructor
    · rw [runSimulation_profitMargin, if_pos hpos]
    · rw [context_profitMargin_eq, runSimulation_profitMargin, if_pos hpos]

/-- Inputs with a zero product price, so the projected revenue is zero. -/
def zeroPriceInputs : SimulationInputs := ⟨5, 200000, 0, 150000, 5000000, []⟩

/-- Claim C4 witness: with price 0 the revenue is 0 and both margins are
exactly 0 even though net profit is negative. -/
theorem profitMargin_rule_witness :
    (runSimulation none zeroPriceInputs).profitMargin = 0 ∧
      (getFinancialContext none zeroPriceInputs mockDataSeed
        mockDataSeed_ne_nil).profitMargin = 0 :=
  (profitMargin_rule none zeroPriceInputs mockDataSeed mockDataSeed_ne_nil).1
    (by simp [runSimulation, zeroPriceInputs])

/-- Claim C5: the resolver maps the startup tag to (1.2, 70000, 300000),
the event tag to (0.8, 60000, 200000) and any other or missing tag to
(1.0, 60000, 300000); it is total, and the Projection Calculator computes
its expenses and revenue from exactly these constants. -/
theorem profile_resolution :
    resolveProfile (some "startup") = ⟨1.2, 70000, 300000⟩ ∧
      resolveProfile (some "event") = ⟨0.8, 60000, 200000⟩ ∧
      (∀ orgType : Option String, orgType ≠ some "startup" →
        orgType ≠ some "event" →
          resolveProfile orgType = ⟨1.0, 60000, 300000⟩) ∧
      (∀ (orgType : Option String) (inputs : SimulationInputs),
        (runSimulation orgType inputs).expenses =
            (resolveProfile orgType).baseFixedCost +
              (resolveProfile orgType).baseSalary * inputs.employees +
              inputs.marketingSpend + inputs.miscExpenses ∧
          (runSimulation orgType inputs).revenue =
            inputs.productPrice *
              ((⌊(100 : ℚ) *
                  (resolveProfile orgType).quantityMultiplier⌋ : ℤ) : ℚ)) := by
  refine ⟨rfl, rfl, fun orgType h1 h2 => ?_,
    fun orgType inputs => ⟨rfl, rfl⟩⟩
  simp only [resolveProfile, if_neg h1, if_neg h2]

/-- Claim C5 witness: an unrecognized tag resolves to the default row. -/
theorem profile_resolution_witness :
    resolveProfile (some "nonprofit") = ⟨1.0, 60000, 300000⟩ :=
  profile_resolution.2.2.1 (some "nonprofit") (by decide) (by decide)

/-- Claim C6: after any number of ticks with any draw streams, the series
still has exactly 8 points, every point has non-negative revenue and
expenses, and the month labels are those of the seed. -/
theorem series_invariant (draws : ℕ → ℕ → ℚ × ℚ) (n : ℕ) :
    (iterateTicks draws n).length = 8 ∧
      (iterateTicks draws n).map TimeSeriesPoint.month =
        mockDataSeed.map TimeSeriesPoint.month ∧
      ∀ p ∈ iterateTicks draws n, 0 ≤ p.revenue ∧ 0 ≤ p.expenses := by
  induction n with
  | zero =>
    refine ⟨rfl, rfl, ?_⟩
    show ∀ p ∈ mockDataSeed, 0 ≤ p.revenue ∧ 0 ≤ p.expenses
    decide
  | succ n ih =>
    refine ⟨?_, ?_, ?_⟩
    · show (tickList (draws n) 0 (iterateTicks draws n)).length = 8
      rw [tickList_length, ih.1]
    · show (tickList (draws n) 0 (iterateTicks draws n)).map
          TimeSeriesPoint.month = mockDataSeed.map TimeSeriesPoint.month
      rw [tickList_map_month, ih.2.1]
    · exact tickList_nonneg (draws n) 0 (iterateTicks draws n)

/-- Claim C6 witness: the first seed point is in the untouched series and
its fields are non-negative. -/
theorem series_invariant_witness :
    (⟨"Jan", 1250000, 875000⟩ : TimeSeriesPoint) ∈
        iterateTicks (fun _ _ => (1 / 2, 1 / 2)) 0 ∧
      (0 : ℚ) ≤ 1250000 ∧ (0 : ℚ) ≤ 875000 :=
  ⟨by decide,
    (series_invariant (fun _ _ => (1 / 2, 1 / 2)) 0).2.2
      ⟨"Jan", 1250000, 875000⟩ (by decide)⟩

/-- Claim C7: one tick maps a point with draws u, v in [0, 1) to the same
month, revenue plus (u - 0.5) * 125000 clamped at 0 and expenses plus
(v - 0.5) * 75000 clamped at 0, with the perturbations lying in
[-62500, 62500) and [-37500, 37500); a tick of the series applies this
pointwise with fresh draws. -/
theorem tick_point_spec (u v : ℚ) (item : TimeSeriesPoint)
    (hu0 : 0 ≤ u) (hu1 : u < 1) (hv0 : 0 ≤ v) (hv1 : v < 1) :
    tickPoint u v item =
        { month := item.month
          revenue := max 0 (item.revenue + (u - 0.5) * 125000)
          expenses := max 0 (item.expenses + (v - 0.5) * 75000) } ∧
      (-62500 ≤ (u - 0.5) * 125000 ∧ (u - 0.5) * 125000 < 62500) ∧
      (-37500 ≤ (v - 0.5) * 75000 ∧ (v - 0.5) * 75000 < 37500) ∧
      ∀ (draw : ℕ → ℚ × ℚ) (i : ℕ) (rest : List TimeSeriesPoint),
        tickList draw i (item :: rest) =
          tickPoint (draw i).1 (draw i).2 item ::
            tickList draw (i + 1) rest := by
  have hu2 : (u - 0.5) * 125000 = 125000 * u - 62500 := by ring
  have hv2 : (v - 0.5) * 75000 = 75000 * v - 37500 := by ring
  refine ⟨rfl, ⟨?_, ?_⟩, ⟨?_, ?_⟩, fun draw i rest => rfl⟩
  · rw [hu2]; linarith
  · rw [hu2]; linarith
  · rw [hv2]; linarith
  · rw [hv2]; linarith

/-- Claim C7 witness at the draw pair (0, 0) on the first seed point. -/
theorem tick_point_spec_witness :
    tickPoint 0 0 ⟨"Jan", 1250000, 875000⟩ =
      { month := "Jan"
        revenue := max 0 (1250000 + ((0 : ℚ) - 0.5) * 125000)
        expenses := max 0 (875000 + ((0 : ℚ) - 0.5) * 75000) } :=
  (tick_point_spec 0 0 ⟨"Jan", 1250000, 875000⟩ (le_refl 0) (by norm_num)
      (le_refl 0) (by norm_num)).1

/-- Claim C8: a run trigger adds exactly 1 to the simulations counter and
leaves exports unchanged, an export trigger adds exactly 1 to exports and
leaves simulations unchanged, and over any sequence of triggers both
counters are monotonically non-decreasing. -/
theorem usage_counters (s : UsageStats) :
    (applyTrigger Trigger.simulate s).simulations = s.simulations + 1 ∧
      (applyTrigger Trigger.simulate s).exports = s.exports ∧
      (applyTrigger Trigger.exportData s).exports = s.exports + 1 ∧
      (applyTrigger Trigger.exportData s).simulations = s.simulations ∧
      ∀ ts : List Trigger,
        s.simulations ≤ (applyTriggers ts s).simulations ∧
          s.exports ≤ (applyTriggers ts s).exports :=
  ⟨rfl, rfl, rfl, rfl, fun ts => applyTriggers_mono ts s⟩

/-- Claim C9: the payload handed to the storage collaborator carries
exactly the snake-case fields, with monthly revenue and expenses equal to
one twelfth of the revenue and expenses of that same run, and the
remaining fields copied from the inputs. -/
theorem persistence_payload (orgType : Option String)
    (inputs : SimulationInputs) :
    saveFinancialDataPayload orgType inputs =
      { current_funds := inputs.currentFunds
        monthly_revenue := (runSimulation orgType inputs).revenue / 12
        monthly_expenses := (runSimulation orgType inputs).expenses / 12
        employees := inputs.employees
        marketing_spend := inputs.marketingSpend
        product_price := inputs.productPrice
        misc_expenses := inputs.miscExpenses } := rfl

/-- Claim C10: loading stored financial data keeps the previous value of
every field whose stored value is 0, replaces every field whose stored
value is non-zero, and always leaves customParameters exactly
unchanged. -/
theorem load_frame_effect (stored : FinancialDataPayload)
    (prev : SimulationInputs) :
    (loadFinancialData stored prev).customParameters =
        prev.customParameters ∧
      (stored.current_funds = 0 →
        (loadFinancialData stored prev).currentFunds = prev.currentFunds) ∧
      (stored.current_funds ≠ 0 →
        (loadFinancialData stored prev).currentFunds =
          stored.current_funds) ∧
      (stored.employees = 0 →
        (loadFinancialData stored prev).employees = prev.employees) ∧
      (stored.employees ≠ 0 →
        (loadFinancialData stored prev).employees = stored.employees) ∧
      (stored.marketing_spend = 0 →
        (loadFinancialData stored prev).marketingSpend =
          prev.marketingSpend) ∧
      (stored.marketing_spend ≠ 0 →
        (loadFinancialData stored prev).marketingSpend =
          stored.marketing_spend) ∧
      (stored.product_price = 0 →
        (loadFinancialData stored prev).productPrice = prev.productPrice) ∧
      (stored.product_price ≠ 0 →
        (loadFinancialData stored prev).productPrice =
          stored.product_price) ∧
      (stored.misc_expenses = 0 →
        (loadFinancialData stored prev).miscExpenses = prev.miscExpenses) ∧
      (stored.misc_expenses ≠ 0 →
        (loadFinancialData stored prev).miscExpenses =
          stored.misc_expenses) := by
  refine ⟨rfl, fun h => ?_, fun h => ?_, fun h => ?_, fun h => ?_,
    fun h => ?_, fun h => ?_, fun h => ?_, fun h => ?_, fun h => ?_,
    fun h => ?_⟩ <;>
    simp [loadFinancialData, h]

/-- A stored row mixing zero (falsy) and non-zero fields. -/
def storedSample : FinancialDataPayload := ⟨0, 1000, 2000, 7, 0, 49, 0⟩

/-- The previous in-memory inputs, carrying a custom parameter. -/
def prevSample : SimulationInputs :=
  ⟨5, 200000, 2999, 150000, 5000000, [("growth", 15)]⟩

/-- Claim C10 witness: zero stored funds, marketing and misc are ignored,
non-zero stored employees and price replace the previous values, and the
custom parameters survive. -/
theorem load_frame_effect_witness :
    (loadFinancialData storedSample prevSample).customParameters =
        prevSample.customParameters ∧
      (loadFinancialData storedSample prevSample).currentFunds = 5000000 ∧
      (loadFinancialData storedSample prevSample).employees = 7 ∧
      (loadFinancialData storedSample prevSample).marketingSpend = 200000 ∧
      (loadFinancialData storedSample prevSample).productPrice = 49 ∧
      (loadFinancialData storedSample prevSample).miscExpenses = 150000 :=
  ⟨(load_frame_effect storedSample prevSample).1,
    (load_frame_effect storedSample prevSample).2.1 (by decide),
    (load_frame_effect storedSample prevSample).2.2.2.2.1 (by decide),
    (load_frame_effect storedSample prevSample).2.2.2.2.2.1 (by decide),
    (load_frame_effect storedSample prevSample).2.2.2.2.2.2.2.2.1
      (by decide),
    (load_frame_effect storedSample prevSample).2.2.2.2.2.2.2.2.2.1
      (by decide)⟩

end CFOHelper
